/-
Verification of the request/response contract of the fastmcp-python-basic
example server (fastmcp_python_basic/server.py).

The four tools (calculator, list_files, system_info, echo) are shallowly
embedded as total Lean functions over a JSON-like `Value` type.  Python
floats are modelled as rationals, Python ints as naturals, Python dicts as
association lists in insertion order.  Filesystem and clock access is
modelled by explicit state records (`FileSystem`, `SystemState`); Python
exceptions raised by filesystem calls are modelled by `Except String`,
with the string playing the role of `str(e)`.
-/
import Mathlib

namespace Server

/-- A JSON-like value, the common codomain of every tool: Python dicts,
lists, strings, floats (as rationals), ints (as naturals) and booleans. -/
inductive Value where
  | str : String → Value
  | num : ℚ → Value
  | nat : Nat → Value
  | bool : Bool → Value
  | list : List Value → Value
  | dict : List (String × Value) → Value

/-- Whether a dict value carries the given key (`k in d` in Python);
false on non-dict values. -/
def Value.hasKey : Value → String → Bool
  | .dict kvs, k => kvs.any (fun p => p.1 == k)
  | _, _ => false

/-- Lookup of a key in a dict value (`d[k]` in Python, first occurrence). -/
def Value.getKey : Value → String → Option Value
  | .dict kvs, k => (kvs.find? (fun p => p.1 == k)).map Prod.snd
  | _, _ => none

/-- `CalculationRequest` of server.py: operation name and two floats. -/
structure CalculationRequest where
  operation : String
  a : ℚ
  b : ℚ

/-- The `inputs` sub-dict that calculator echoes back. -/
def calcInputs (req : CalculationRequest) : Value :=
  .dict [("a", .num req.a), ("b", .num req.b)]

/-- The division-by-zero error dict of calculator (server.py lines 59-63). -/
def divZeroDict (req : CalculationRequest) : Value :=
  .dict [("error", .str "Division by zero is not allowed"),
         ("operation", .str req.operation),
         ("inputs", calcInputs req)]

/-- The unknown-operation error dict of calculator (server.py lines 66-69). -/
def unknownOpDict (req : CalculationRequest) : Value :=
  .dict [("error", .str ("Unknown operation: " ++ req.operation)),
         ("supported_operations",
           .list [.str "add", .str "subtract", .str "multiply", .str "divide"])]

/-- The success dict of calculator (server.py lines 71-75). -/
def calcSuccessDict (req : CalculationRequest) (result : ℚ) : Value :=
  .dict [("result", .num result),
         ("operation", .str req.operation),
         ("inputs", calcInputs req)]

/-- `calculator` of server.py (lines 42-81).  The if/elif chain is mirrored
in source order; the final `except` branch is unreachable because no
arithmetic on the modelled numbers can raise, so it has no counterpart. -/
def calculator (req : CalculationRequest) : Value :=
  if req.operation = "add" then calcSuccessDict req (req.a + req.b)
  else if req.operation = "subtract" then calcSuccessDict req (req.a - req.b)
  else if req.operation = "multiply" then calcSuccessDict req (req.a * req.b)
  else if req.operation = "divide" then
    if req.b = 0 then divZeroDict req
    else calcSuccessDict req (req.a / req.b)
  else unknownOpDict req

/-- `FileListRequest` of server.py: directory path and glob pattern. -/
structure FileListRequest where
  directory : String
  pattern : String

/-- Result of `Path.stat()` on one entry: byte size and modification time
(float seconds, `st_mtime`). -/
structure FileStat where
  st_size : Nat
  st_mtime : ℚ

/-- One entry produced by `directory.glob(pattern)`: its name, its string
path, the answers of `is_file()` / `is_dir()`, and the outcome of `stat()`
(`Except.error m` models `stat()` raising with `str(e) = m`). -/
structure GlobEntry where
  name : String
  pathStr : String
  isFile : Bool
  isDir : Bool
  statResult : Except String FileStat

/-- The ambient state `list_files` reads: `datetime.fromtimestamp(t).isoformat()`
as an abstract rendering function, and the three fallible filesystem calls
`Path.exists`, `Path.is_dir` and `Path.glob` (`Except.error m` models the
call raising with `str(e) = m`). -/
structure FileSystem where
  isoOfMtime : ℚ → String
  pathExists : String → Except String Bool
  pathIsDir : String → Except String Bool
  globEntries : String → String → Except String (List GlobEntry)

/-- The per-file dict appended for a regular file (server.py lines 111-117). -/
def fileDict (fs : FileSystem) (e : GlobEntry) (st : FileStat) : Value :=
  .dict [("name", .str e.name),
         ("path", .str e.pathStr),
         ("size", .nat st.st_size),
         ("modified", .str (fs.isoOfMtime st.st_mtime)),
         ("is_file", .bool true)]

/-- The per-entry dict appended for a directory (server.py lines 119-123). -/
def dirDict (e : GlobEntry) : Value :=
  .dict [("name", .str e.name),
         ("path", .str e.pathStr),
         ("is_file", .bool false)]

/-- The `files` accumulation loop of `list_files` (server.py lines 107-123):
file entries get the full stat dict (a raising `stat()` aborts the loop),
directory entries the short dict, anything else is skipped. -/
def buildFiles (fs : FileSystem) : List GlobEntry → Except String (List Value)
  | [] => .ok []
  | e :: rest =>
    if e.isFile then
      match e.statResult with
      | .error m => .error m
      | .ok st =>
        match buildFiles fs rest with
        | .error m => .error m
        | .ok tail => .ok (fileDict fs e st :: tail)
    else if e.isDir then
      match buildFiles fs rest with
      | .error m => .error m
      | .ok tail => .ok (dirDict e :: tail)
    else buildFiles fs rest

/-- The nonexistent-directory error dict (server.py lines 95-98). -/
def dirNotExistDict (req : FileListRequest) : Value :=
  .dict [("error", .str ("Directory does not exist: " ++ req.directory)),
         ("directory", .str req.directory)]

/-- The not-a-directory error dict (server.py lines 101-104). -/
def notDirDict (req : FileListRequest) : Value :=
  .dict [("error", .str ("Path is not a directory: " ++ req.directory)),
         ("directory", .str req.directory)]

/-- The success dict of `list_files` (server.py lines 125-130);
`count` is `len(files)`. -/
def filesSuccessDict (req : FileListRequest) (fvs : List Value) : Value :=
  .dict [("directory", .str req.directory),
         ("pattern", .str req.pattern),
         ("files", .list fvs),
         ("count", .nat fvs.length)]

/-- The `try` body of `list_files` (server.py lines 91-130): an
`Except.error m` is an exception reaching the `except` clause. -/
def list_files_body (fs : FileSystem) (req : FileListRequest) : Except String Value :=
  match fs.pathExists req.directory with
  | .error m => .error m
  | .ok ex =>
    if ex = false then .ok (dirNotExistDict req)
    else
      match fs.pathIsDir req.directory with
      | .error m => .error m
      | .ok isd =>
        if isd = false then .ok (notDirDict req)
        else
          match fs.globEntries req.directory req.pattern with
          | .error m => .error m
          | .ok es =>
            match buildFiles fs es with
            | .error m => .error m
            | .ok fvs => .ok (filesSuccessDict req fvs)

/-- The catch-all error dict of `list_files` (server.py lines 131-136). -/
def listFilesCatchDict (m : String) (req : FileListRequest) : Value :=
  .dict [("error", .str ("File listing error: " ++ m)),
         ("directory", .str req.directory),
         ("pattern", .str req.pattern)]

/-- `list_files` of server.py (lines 85-136): the `try` body with every
escaping exception converted to the catch-all error dict. -/
def list_files (fs : FileSystem) (req : FileListRequest) : Value :=
  match list_files_body fs req with
  | .ok v => v
  | .error m => listFilesCatchDict m req

/-- Spec-side description of the success file list: the glob entries, in
order, each rendered to its dict, with non-file non-directory entries
dropped and files whose stat raised absent (the loop cannot in fact
complete when one raises; see `buildFiles_eq_renderedFiles`). -/
def renderEntry (fs : FileSystem) (e : GlobEntry) : Option Value :=
  if e.isFile then
    match e.statResult with
    | .ok st => some (fileDict fs e st)
    | .error _ => none
  else if e.isDir then some (dirDict e)
  else none

/-- Spec-side file list: `renderEntry` mapped over the glob results. -/
def renderedFiles (fs : FileSystem) (es : List GlobEntry) : List Value :=
  es.filterMap (renderEntry fs)

/-- The ambient state `system_info` and `echo` read: the current
`datetime.now().isoformat()` string, `sys.version`, `platform.platform()`,
`os.getcwd()`, and `os.environ` as a partial map. -/
structure SystemState where
  now_iso : String
  python_version : String
  platform : String
  cwd : String
  environ : String → Option String

/-- The `safe_vars` allow-list of server.py line 150. -/
def safe_vars : List String := ["PATH", "HOME", "USER", "SHELL", "LANG", "PWD"]

/-- The `env_vars` loop of server.py lines 149-153: each allow-listed name
present in the environment, paired with its value, in allow-list order. -/
def env_vars (environ : String → Option String) : List (String × String) :=
  safe_vars.filterMap (fun v =>
    match environ v with
    | some x => some (v, x)
    | none => none)

/-- `system_info` of server.py (lines 139-161), with the
`SystemInfoResponse` model rendered as its field dict. -/
def system_info (st : SystemState) : Value :=
  .dict [("timestamp", .str st.now_iso),
         ("python_version", .str st.python_version),
         ("platform", .str st.platform),
         ("working_directory", .str st.cwd),
         ("environment_variables",
           .dict ((env_vars st.environ).map (fun p => (p.1, Value.str p.2))))]

/-- `echo` of server.py (lines 164-175); `now_iso` is the ambient
`datetime.now().isoformat()` string. -/
def echo (message : String) (now_iso : String) : Value :=
  .dict [("message", .str message),
         ("timestamp", .str now_iso),
         ("length", .nat message.length)]

/-
Concrete fixtures used by the witness theorems: a directory `/d` whose
glob yields one regular file, one subdirectory and one broken symlink,
and a filesystem whose every call raises.
-/

/-- Fixture: a regular file `a.txt` of 10 bytes, mtime 5. -/
def demoEntryFile : GlobEntry :=
  ⟨"a.txt", "/d/a.txt", true, false, .ok ⟨10, 5⟩⟩

/-- Fixture: a subdirectory `sub`. -/
def demoEntryDir : GlobEntry :=
  ⟨"sub", "/d/sub", false, true, .error "unused"⟩

/-- Fixture: a broken symlink `bad`: neither a file nor a directory. -/
def demoEntryOther : GlobEntry :=
  ⟨"bad", "/d/bad", false, false, .error "unused"⟩

/-- Fixture glob result for `/d`. -/
def demoEntries : List GlobEntry := [demoEntryFile, demoEntryDir, demoEntryOther]

/-- Fixture filesystem: exactly the path `/d` exists and is a directory,
and globbing anything in it yields `demoEntries`. -/
def fsDemo : FileSystem :=
  ⟨fun _ => "1970-01-01T00:00:05",
   fun d => .ok (d == "/d"),
   fun d => .ok (d == "/d"),
   fun _ _ => .ok demoEntries⟩

/-- Fixture filesystem in which every call raises. -/
def fsRaise : FileSystem :=
  ⟨fun _ => "unused",
   fun _ => .error "boom",
   fun _ => .error "boom",
   fun _ _ => .error "boom"⟩

/-- Fixture filesystem in which `/f` exists but is a plain file. -/
def fsPlainFile : FileSystem :=
  ⟨fun _ => "unused",
   fun d => .ok (d == "/f"),
   fun _ => .ok false,
   fun _ _ => .ok []⟩

/-- Fixture environment: the allow-listed `PATH` and `HOME` are set, and so
is a variable `SECRET` outside the allow-list. -/
def stDemo : SystemState :=
  ⟨"t0", "3.12", "linux", "/w",
   fun v => if v == "PATH" then some "/bin"
            else if v == "HOME" then some "/root"
            else if v == "SECRET" then some "hunter2"
            else none⟩

/-- `buildFiles` uses the filesystem only through `isoOfMtime`. -/
lemma buildFiles_congr (fs₁ fs₂ : FileSystem) (h : fs₁.isoOfMtime = fs₂.isoOfMtime) :
    ∀ es : List GlobEntry, buildFiles fs₁ es = buildFiles fs₂ es := by
  intro es
  induction es with
  | nil => rfl
  | cons e rest ih =>
    simp only [buildFiles, ih, fileDict, h]

/-- When no file entry's `stat()` raises, the accumulation loop completes
and produces exactly the rendered entries, in glob order. -/
lemma buildFiles_eq_renderedFiles (fs : FileSystem) (es : List GlobEntry)
    (h : ∀ e ∈ es, e.isFile = true → ∃ st, e.statResult = Except.ok st) :
    buildFiles fs es = Except.ok (renderedFiles fs es) := by
  induction es with
  | nil => rfl
  | cons e rest ih =>
    have hrest : ∀ x ∈ rest, x.isFile = true → ∃ st, x.statResult = Except.ok st :=
      fun x hx => h x (List.mem_cons_of_mem _ hx)
    by_cases hf : e.isFile
    · obtain ⟨st, hst⟩ := h e (List.mem_cons_self _ _) hf
      simp [buildFiles, renderedFiles, List.filterMap_cons, renderEntry,
        hf, hst, ih hrest]
    · by_cases hd : e.isDir
      · simp [buildFiles, renderedFiles, List.filterMap_cons, renderEntry,
          hf, hd, ih hrest]
      · simp [buildFiles, renderedFiles, List.filterMap_cons, renderEntry,
          hf, hd, ih hrest]

/-- Entries that are neither files nor directories contribute nothing. -/
lemma renderedFiles_filter (fs : FileSystem) (es : List GlobEntry) :
    renderedFiles fs es =
      renderedFiles fs (es.filter (fun e => e.isFile || e.isDir)) := by
  induction es with
  | nil => rfl
  | cons e rest ih =>
    by_cases hf : e.isFile
    · simp only [renderedFiles, List.filter_cons, hf, Bool.true_or, if_true,
        List.filterMap_cons] at ih ⊢
      rw [ih]
    · by_cases hd : e.isDir
      · simp only [renderedFiles, List.filter_cons, hf, hd, Bool.false_or, if_true,
          List.filterMap_cons] at ih ⊢
        rw [ih]
      · simp only [renderedFiles] at ih
        simp [renderedFiles, List.filter_cons, hf, hd, List.filterMap_cons,
          renderEntry, ih]

/-- `list_files` on a nonexistent path. -/
lemma list_files_not_exists (fs : FileSystem) (req : FileListRequest)
    (h : fs.pathExists req.directory = Except.ok false) :
    list_files fs req = dirNotExistDict req := by
  simp [list_files, list_files_body, h]

/-- `list_files` on an existing path that is not a directory. -/
lemma list_files_not_dir (fs : FileSystem) (req : FileListRequest)
    (hex : fs.pathExists req.directory = Except.ok true)
    (h : fs.pathIsDir req.directory = Except.ok false) :
    list_files fs req = notDirDict req := by
  simp [list_files, list_files_body, hex, h]

/-- `list_files` on the happy path. -/
lemma list_files_success (fs : FileSystem) (req : FileListRequest) (es : List GlobEntry)
    (hex : fs.pathExists req.directory = Except.ok true)
    (hdir : fs.pathIsDir req.directory = Except.ok true)
    (hglob : fs.globEntries req.directory req.pattern = Except.ok es)
    (hst : ∀ e ∈ es, e.isFile = true → ∃ st, e.statResult = Except.ok st) :
    list_files fs req = filesSuccessDict req (renderedFiles fs es) := by
  simp [list_files, list_files_body, hex, hdir, hglob,
    buildFiles_eq_renderedFiles fs es hst]

/-- Every file entry of the demo glob has a successful `stat()`. -/
lemma demoEntries_stats_ok :
    ∀ e ∈ demoEntries, e.isFile = true → ∃ st, e.statResult = Except.ok st := by
  intro e he hf
  simp only [demoEntries, List.mem_cons, List.not_mem_nil, or_false] at he
  rcases he with rfl | rfl | rfl
  · exact ⟨⟨10, 5⟩, rfl⟩
  · simp [demoEntryDir] at hf
  · simp [demoEntryOther] at hf

/-- Every successful body result is a dict. -/
lemma list_files_body_ok_dict (fs : FileSystem) (req : FileListRequest) :
    ∀ v, list_files_body fs req = Except.ok v → ∃ kvs, v = Value.dict kvs := by
  intro v h
  unfold list_files_body at h
  repeat' split at h
  all_goals cases h
  all_goals exact ⟨_, rfl⟩

/-- C1: for every tool (calculator, listFiles, systemInfo, echo) and every
input, the invocation never raises past the tool boundary: each embedded
function is total and always returns a dict envelope, and any exception in
the body of listFiles is converted into its catch-all Error payload. -/
theorem tools_never_throw :
    (∀ req : CalculationRequest, ∃ kvs, calculator req = Value.dict kvs)
    ∧ (∀ (fs : FileSystem) (req : FileListRequest), ∃ kvs, list_files fs req = Value.dict kvs)
    ∧ (∀ st : SystemState, ∃ kvs, system_info st = Value.dict kvs)
    ∧ (∀ msg now : String, ∃ kvs, echo msg now = Value.dict kvs)
    ∧ (∀ (fs : FileSystem) (req : FileListRequest) (m : String),
        list_files_body fs req = Except.error m →
        list_files fs req = listFilesCatchDict m req
        ∧ (list_files fs req).hasKey "error" = true) := by
  refine ⟨?_, ?_, ?_, ?_, ?_⟩
  · intro req
    unfold calculator
    split_ifs <;> exact ⟨_, rfl⟩
  · intro fs req
    unfold list_files
    split
    · rename_i v heq
      exact list_files_body_ok_dict fs req v heq
    · exact ⟨_, rfl⟩
  · intro st
    exact ⟨_, rfl⟩
  · intro msg now
    exact ⟨_, rfl⟩
  · intro fs req m h
    refine ⟨?_, ?_⟩ <;> simp [list_files, h, listFilesCatchDict, Value.hasKey]

/-- C1 witness: on a filesystem whose `exists` call raises, `list_files`
returns the catch-all Error envelope. -/
theorem tools_never_throw_witness :
    list_files fsRaise ⟨"/d", "*"⟩ = listFilesCatchDict "boom" ⟨"/d", "*"⟩
    ∧ (list_files fsRaise ⟨"/d", "*"⟩).hasKey "error" = true :=
  tools_never_throw.2.2.2.2 fsRaise ⟨"/d", "*"⟩ "boom" rfl

/-- C2: the calculator contract: divide-by-zero yields the fixed Error with
echoed inputs; an operation outside the four supported ones yields the
unknown-operation Error with the supported list; otherwise a Success dict
with the arithmetic result; and calculate("add", 2, 3) gives result 5. -/
theorem calculator_contract (req : CalculationRequest) :
    (req.operation = "divide" → req.b = 0 → calculator req = divZeroDict req)
    ∧ (req.operation ∉ (["add", "subtract", "multiply", "divide"] : List String) →
        calculator req = unknownOpDict req)
    ∧ (req.operation = "add" → calculator req = calcSuccessDict req (req.a + req.b))
    ∧ (req.operation = "subtract" → calculator req = calcSuccessDict req (req.a - req.b))
    ∧ (req.operation = "multiply" → calculator req = calcSuccessDict req (req.a * req.b))
    ∧ (req.operation = "divide" → req.b ≠ 0 →
        calculator req = calcSuccessDict req (req.a / req.b))
    ∧ calculator ⟨"add", 2, 3⟩ = Value.dict
        [("result", Value.num 5), ("operation", Value.str "add"),
         ("inputs", Value.dict [("a", Value.num 2), ("b", Value.num 3)])] := by
  obtain ⟨op, a, b⟩ := req
  refine ⟨?_, ?_, ?_, ?_, ?_, ?_, ?_⟩
  · intro hop hb
    subst hop
    have hb0 : b = 0 := hb
    subst hb0
    simp [calculator]
  · intro h
    simp only [List.mem_cons, List.not_mem_nil, or_false, not_or] at h
    obtain ⟨h1, h2, h3, h4⟩ := h
    simp [calculator, h1, h2, h3, h4]
  · intro hop
    subst hop
    simp [calculator]
  · intro hop
    subst hop
    simp [calculator]
  · intro hop
    subst hop
    simp [calculator]
  · intro hop hb
    subst hop
    simp [calculator, hb]
  · have e5 : (2 : ℚ) + 3 = 5 := by norm_num
    simp [calculator, calcSuccessDict, calcInputs, e5]

/-- C2 witness: divide-by-zero at (1, 0) yields the division error dict. -/
theorem calculator_contract_witness :
    calculator ⟨"divide", 1, 0⟩ = divZeroDict ⟨"divide", 1, 0⟩ :=
  (calculator_contract ⟨"divide", 1, 0⟩).1 rfl rfl

/-- C3: for every tool and every input the returned envelope populates
exactly one variant: the "error" key is present exactly when the success
payload ("result" for calculator, "files" for listFiles) is absent, and
systemInfo and echo always return their success payload and never an
"error" key. -/
theorem exactly_one_variant :
    (∀ req : CalculationRequest,
        (calculator req).hasKey "error" = !(calculator req).hasKey "result")
    ∧ (∀ (fs : FileSystem) (req : FileListRequest),
        (list_files fs req).hasKey "error" = !(list_files fs req).hasKey "files")
    ∧ (∀ st : SystemState,
        (system_info st).hasKey "error" = false
        ∧ (system_info st).hasKey "timestamp" = true)
    ∧ (∀ msg now : String,
        (echo msg now).hasKey "error" = false
        ∧ (echo msg now).hasKey "message" = true) := by
  refine ⟨?_, ?_, ?_, ?_⟩
  · intro req
    unfold calculator
    split_ifs <;> rfl
  · intro fs req
    cases h : list_files_body fs req with
    | error m => simp [list_files, h, listFilesCatchDict, Value.hasKey]
    | ok v =>
      have hlf : list_files fs req = v := by simp [list_files, h]
      rw [hlf]
      unfold list_files_body at h
      repeat' split at h
      all_goals cases h
      all_goals rfl
  · intro st
    exact ⟨rfl, rfl⟩
  · intro msg now
    exact ⟨rfl, rfl⟩

/-- C4 counterexample: the unknown-operation Error of calculator echoes no
inputs at all (no "inputs", "a" or "b" key), and the nonexistent-path Error
of listFiles omits the call's "pattern" input. -/
theorem error_inputs_counterexample :
    (calculator ⟨"mod", 1, 2⟩).hasKey "error" = true
    ∧ (calculator ⟨"mod", 1, 2⟩).hasKey "inputs" = false
    ∧ (calculator ⟨"mod", 1, 2⟩).hasKey "a" = false
    ∧ (calculator ⟨"mod", 1, 2⟩).hasKey "b" = false
    ∧ (list_files fsDemo ⟨"/nonexistent", "*"⟩).hasKey "error" = true
    ∧ (list_files fsDemo ⟨"/nonexistent", "*"⟩).hasKey "pattern" = false := by
  refine ⟨rfl, rfl, rfl, rfl, rfl, rfl⟩

/-- C4 amended: Error payloads echo the inputs the code attaches to them:
calculator's division-by-zero Error echoes the operation and both operands;
its unknown-operation Error names the operation in the message and carries
the supported-operations list, but echoes no operands; listFiles'
nonexistent-path and not-a-directory Errors echo the directory but not the
pattern; listFiles' catch-all Error echoes both directory and pattern. -/
theorem error_payload_inventory (req : CalculationRequest) (fs : FileSystem)
    (freq : FileListRequest) :
    (req.operation = "divide" → req.b = 0 →
        (calculator req).getKey "error" = some (Value.str "Division by zero is not allowed")
        ∧ (calculator req).getKey "operation" = some (Value.str req.operation)
        ∧ (calculator req).getKey "inputs" = some (calcInputs req))
    ∧ (req.operation ∉ (["add", "subtract", "multiply", "divide"] : List String) →
        (calculator req).getKey "error" =
          some (Value.str ("Unknown operation: " ++ req.operation))
        ∧ (calculator req).getKey "supported_operations" =
          some (Value.list [.str "add", .str "subtract", .str "multiply", .str "divide"])
        ∧ (calculator req).hasKey "inputs" = false)
    ∧ (fs.pathExists freq.directory = Except.ok false →
        (list_files fs freq).getKey "error" =
          some (Value.str ("Directory does not exist: " ++ freq.directory))
        ∧ (list_files fs freq).getKey "directory" = some (Value.str freq.directory)
        ∧ (list_files fs freq).hasKey "pattern" = false)
    ∧ (fs.pathExists freq.directory = Except.ok true →
        fs.pathIsDir freq.directory = Except.ok false →
        (list_files fs freq).getKey "error" =
          some (Value.str ("Path is not a directory: " ++ freq.directory))
        ∧ (list_files fs freq).getKey "directory" = some (Value.str freq.directory)
        ∧ (list_files fs freq).hasKey "pattern" = false)
    ∧ (∀ m, list_files_body fs freq = Except.error m →
        (list_files fs freq).getKey "error" =
          some (Value.str ("File listing error: " ++ m))
        ∧ (list_files fs freq).getKey "directory" = some (Value.str freq.directory)
        ∧ (list_files fs freq).getKey "pattern" = some (Value.str freq.pattern)) := by
  refine ⟨?_, ?_, ?_, ?_, ?_⟩
  · intro hop hb
    obtain ⟨op, a, b⟩ := req
    subst hop
    have hb0 : b = 0 := hb
    subst hb0
    refine ⟨?_, ?_, ?_⟩ <;> rfl
  · intro h
    obtain ⟨op, a, b⟩ := req
    simp only [List.mem_cons, List.not_mem_nil, or_false, not_or] at h
    obtain ⟨h1, h2, h3, h4⟩ := h
    have hc : calculator ⟨op, a, b⟩ = unknownOpDict ⟨op, a, b⟩ := by
      simp [calculator, h1, h2, h3, h4]
    rw [hc]
    refine ⟨?_, ?_, ?_⟩ <;> rfl
  · intro h
    rw [list_files_not_exists fs freq h]
    refine ⟨?_, ?_, ?_⟩ <;> rfl
  · intro hex h
    rw [list_files_not_dir fs freq hex h]
    refine ⟨?_, ?_, ?_⟩ <;> rfl
  · intro m h
    have hc : list_files fs freq = listFilesCatchDict m freq := by
      simp [list_files, h]
    rw [hc]
    refine ⟨?_, ?_, ?_⟩ <;> rfl

/-- C4 amended witness: at operation "mod" the unknown-operation Error
carries the supported list and no inputs, and at a nonexistent path the
listFiles Error echoes the directory and no pattern. -/
theorem error_payload_inventory_witness :
    ((calculator ⟨"mod", 1, 2⟩).getKey "error" =
        some (Value.str "Unknown operation: mod")
      ∧ (calculator ⟨"mod", 1, 2⟩).hasKey "inputs" = false)
    ∧ ((list_files fsDemo ⟨"/nonexistent", "*"⟩).getKey "directory" =
        some (Value.str "/nonexistent")
      ∧ (list_files fsDemo ⟨"/nonexistent", "*"⟩).hasKey "pattern" = false) := by
  have h := error_payload_inventory ⟨"mod", 1, 2⟩ fsDemo ⟨"/nonexistent", "*"⟩
  have h2 := h.2.1 (by decide)
  have h3 := h.2.2.1 rfl
  exact ⟨⟨h2.1, h2.2.2⟩, ⟨h3.2.1, h3.2.2⟩⟩

/-- C5: listFiles returns the fixed "Directory does not exist" Error when
the path does not exist, and the "Path is not a directory" Error when it
exists but is not a directory; in both cases the result is independent of
the glob function, so no enumeration takes place. -/
theorem list_files_path_errors (fs : FileSystem) (req : FileListRequest) :
    (fs.pathExists req.directory = Except.ok false →
        list_files fs req = dirNotExistDict req
        ∧ (list_files fs req).getKey "error" =
            some (Value.str ("Directory does not exist: " ++ req.directory))
        ∧ ∀ g, list_files ⟨fs.isoOfMtime, fs.pathExists, fs.pathIsDir, g⟩ req =
            dirNotExistDict req)
    ∧ (fs.pathExists req.directory = Except.ok true →
        fs.pathIsDir req.directory = Except.ok false →
        list_files fs req = notDirDict req
        ∧ (list_files fs req).getKey "error" =
            some (Value.str ("Path is not a directory: " ++ req.directory))
        ∧ ∀ g, list_files ⟨fs.isoOfMtime, fs.pathExists, fs.pathIsDir, g⟩ req =
            notDirDict req) := by
  constructor
  · intro h
    refine ⟨list_files_not_exists fs req h, ?_, ?_⟩
    · rw [list_files_not_exists fs req h]
      rfl
    · intro g
      exact list_files_not_exists ⟨fs.isoOfMtime, fs.pathExists, fs.pathIsDir, g⟩ req h
  · intro hex h
    refine ⟨list_files_not_dir fs req hex h, ?_, ?_⟩
    · rw [list_files_not_dir fs req hex h]
      rfl
    · intro g
      exact list_files_not_dir ⟨fs.isoOfMtime, fs.pathExists, fs.pathIsDir, g⟩ req hex h

/-- C5 witness: a nonexistent path and an existing plain-file path both
yield their respective Errors on concrete filesystems. -/
theorem list_files_path_errors_witness :
    list_files fsDemo ⟨"/nonexistent", "*"⟩ = dirNotExistDict ⟨"/nonexistent", "*"⟩
    ∧ list_files fsPlainFile ⟨"/f", "*"⟩ = notDirDict ⟨"/f", "*"⟩ :=
  ⟨((list_files_path_errors fsDemo ⟨"/nonexistent", "*"⟩).1 rfl).1,
   ((list_files_path_errors fsPlainFile ⟨"/f", "*"⟩).2 rfl rfl).1⟩

/-- C6: when listFiles succeeds it returns Success with the directory, the
pattern, the rendered glob entries in order, and count equal to the length
of that list; a file entry is rendered with its name, path, byte size,
modified timestamp (the isoformat rendering of `st_mtime`) and is_file
true, a directory entry with name, path and is_file false. -/
theorem list_files_success_spec (fs : FileSystem) (req : FileListRequest)
    (es : List GlobEntry)
    (hex : fs.pathExists req.directory = Except.ok true)
    (hdir : fs.pathIsDir req.directory = Except.ok true)
    (hglob : fs.globEntries req.directory req.pattern = Except.ok es)
    (hst : ∀ e ∈ es, e.isFile = true → ∃ st, e.statResult = Except.ok st) :
    list_files fs req = Value.dict
      [("directory", Value.str req.directory),
       ("pattern", Value.str req.pattern),
       ("files", Value.list (renderedFiles fs es)),
       ("count", Value.nat (renderedFiles fs es).length)]
    ∧ (∀ e ∈ es, ∀ st, e.isFile = true → e.statResult = Except.ok st →
        renderEntry fs e = some (Value.dict
          [("name", Value.str e.name), ("path", Value.str e.pathStr),
           ("size", Value.nat st.st_size),
           ("modified", Value.str (fs.isoOfMtime st.st_mtime)),
           ("is_file", Value.bool true)]))
    ∧ (∀ e ∈ es, e.isFile = false → e.isDir = true →
        renderEntry fs e = some (Value.dict
          [("name", Value.str e.name), ("path", Value.str e.pathStr),
           ("is_file", Value.bool false)])) := by
  refine ⟨list_files_success fs req es hex hdir hglob hst, ?_, ?_⟩
  · intro e he st hf hok
    simp [renderEntry, hf, hok, fileDict]
  · intro e he hf hd
    simp [renderEntry, hf, hd, dirDict]

/-- C6 witness: on the demo directory the success envelope carries the
rendered entries and their count. -/
theorem list_files_success_spec_witness :
    list_files fsDemo ⟨"/d", "*"⟩ = Value.dict
      [("directory", Value.str "/d"),
       ("pattern", Value.str "*"),
       ("files", Value.list (renderedFiles fsDemo demoEntries)),
       ("count", Value.nat (renderedFiles fsDemo demoEntries).length)] :=
  (list_files_success_spec fsDemo ⟨"/d", "*"⟩ demoEntries rfl rfl rfl
    demoEntries_stats_ok).1

/-- C7: for every environment state, the environment_variables field of the
systemInfo result carries only keys of the allow-list
PATH, HOME, USER, SHELL, LANG, PWD. -/
theorem env_allow_list (st : SystemState) :
    ∃ kvs, (system_info st).getKey "environment_variables" = some (Value.dict kvs)
      ∧ ∀ p ∈ kvs, p.1 ∈ safe_vars := by
  refine ⟨(env_vars st.environ).map (fun p => (p.1, Value.str p.2)), ?_, ?_⟩
  · simp [system_info, Value.getKey]
  intro p hp
  simp only [List.mem_map] at hp
  obtain ⟨q, hq, rfl⟩ := hp
  simp only [env_vars, List.mem_filterMap] at hq
  obtain ⟨v, hv, hmatch⟩ := hq
  cases hx : st.environ v with
  | none => rw [hx] at hmatch; cases hmatch
  | some x =>
    rw [hx] at hmatch
    cases hmatch
    exact hv

/-- C7 witness: on the demo environment (which also sets a variable SECRET
outside the allow-list) only allow-listed keys appear. -/
theorem env_allow_list_witness :
    ∃ kvs, (system_info stDemo).getKey "environment_variables" =
        some (Value.dict kvs)
      ∧ ∀ p ∈ kvs, p.1 ∈ safe_vars :=
  env_allow_list stDemo

/-- C8: echo always succeeds and returns message, timestamp and length,
the message unchanged and the length the character count of the input;
echo("hi") gives message "hi" and length 2. -/
theorem echo_spec :
    (∀ msg now : String,
        echo msg now = Value.dict
          [("message", Value.str msg), ("timestamp", Value.str now),
           ("length", Value.nat msg.length)]
        ∧ (echo msg now).getKey "message" = some (Value.str msg)
        ∧ (echo msg now).getKey "length" = some (Value.nat msg.length))
    ∧ echo "hi" "t0" = Value.dict
        [("message", Value.str "hi"), ("timestamp", Value.str "t0"),
         ("length", Value.nat 2)] :=
  ⟨fun _ _ => ⟨rfl, rfl, rfl⟩, rfl⟩

/-- The body of listFiles depends on the ambient state only through the
calls it makes. -/
lemma list_files_body_congr (fs₁ fs₂ : FileSystem) (req : FileListRequest)
    (hiso : fs₁.isoOfMtime = fs₂.isoOfMtime)
    (hex : fs₁.pathExists req.directory = fs₂.pathExists req.directory)
    (hdir : fs₁.pathIsDir req.directory = fs₂.pathIsDir req.directory)
    (hglob : fs₁.globEntries req.directory req.pattern =
      fs₂.globEntries req.directory req.pattern) :
    list_files_body fs₁ req = list_files_body fs₂ req := by
  have hb := buildFiles_congr fs₁ fs₂ hiso
  unfold list_files_body
  simp only [hex, hdir, hglob, hb]

/-- C9: every tool is deterministic: two invocations with equal inputs
against filesystem and environment states that answer every performed call
identically produce equal envelopes. -/
theorem tools_deterministic :
    (∀ (fs₁ fs₂ : FileSystem) (req : FileListRequest),
        fs₁.isoOfMtime = fs₂.isoOfMtime →
        fs₁.pathExists req.directory = fs₂.pathExists req.directory →
        fs₁.pathIsDir req.directory = fs₂.pathIsDir req.directory →
        fs₁.globEntries req.directory req.pattern =
          fs₂.globEntries req.directory req.pattern →
        list_files fs₁ req = list_files fs₂ req)
    ∧ (∀ r₁ r₂ : CalculationRequest, r₁ = r₂ → calculator r₁ = calculator r₂)
    ∧ (∀ s₁ s₂ : SystemState, s₁ = s₂ → system_info s₁ = system_info s₂)
    ∧ (∀ m₁ m₂ t₁ t₂ : String, m₁ = m₂ → t₁ = t₂ → echo m₁ t₁ = echo m₂ t₂) := by
  refine ⟨?_, ?_, ?_, ?_⟩
  · intro fs₁ fs₂ req hiso hex hdir hglob
    unfold list_files
    rw [list_files_body_congr fs₁ fs₂ req hiso hex hdir hglob]
  · intro r₁ r₂ h
    rw [h]
  · intro s₁ s₂ h
    rw [h]
  · intro m₁ m₂ t₁ t₂ h1 h2
    rw [h1, h2]

/-- C9 witness: instantiated at the demo filesystem and concrete inputs. -/
theorem tools_deterministic_witness :
    list_files fsDemo ⟨"/d", "*"⟩ = list_files fsDemo ⟨"/d", "*"⟩
    ∧ calculator ⟨"add", 2, 3⟩ = calculator ⟨"add", 2, 3⟩ :=
  ⟨tools_deterministic.1 fsDemo fsDemo ⟨"/d", "*"⟩ rfl rfl rfl rfl,
   tools_deterministic.2.1 ⟨"add", 2, 3⟩ ⟨"add", 2, 3⟩ rfl⟩

/-- C10: on success, glob matches that are neither regular files nor
directories are silently dropped: the files list is that of the glob
results restricted to files and directories, count is its length (inside
`filesSuccessDict`), and the files list is never longer than the glob
result. -/
theorem skip_non_file_non_dir (fs : FileSystem) (req : FileListRequest)
    (es : List GlobEntry)
    (hex : fs.pathExists req.directory = Except.ok true)
    (hdir : fs.pathIsDir req.directory = Except.ok true)
    (hglob : fs.globEntries req.directory req.pattern = Except.ok es)
    (hst : ∀ e ∈ es, e.isFile = true → ∃ st, e.statResult = Except.ok st) :
    list_files fs req =
      filesSuccessDict req
        (renderedFiles fs (es.filter (fun e => e.isFile || e.isDir)))
    ∧ (∀ e ∈ es, e.isFile = false → e.isDir = false → renderEntry fs e = none)
    ∧ (renderedFiles fs es).length ≤ es.length := by
  refine ⟨?_, ?_, ?_⟩
  · rw [list_files_success fs req es hex hdir hglob hst,
      renderedFiles_filter fs es]
  · intro e he hf hd
    simp [renderEntry, hf, hd]
  · simpa [renderedFiles] using List.length_filterMap_le (renderEntry fs) es

/-- C10 witness: the demo glob yields three matches but only two files-list
entries; the broken-symlink match is dropped and the count is strictly
smaller than the number of matches. -/
theorem skip_non_file_non_dir_witness :
    list_files fsDemo ⟨"/d", "*"⟩ =
      filesSuccessDict ⟨"/d", "*"⟩
        (renderedFiles fsDemo (demoEntries.filter (fun e => e.isFile || e.isDir)))
    ∧ (renderedFiles fsDemo demoEntries).length < demoEntries.length := by
  refine ⟨(skip_non_file_non_dir fsDemo ⟨"/d", "*"⟩ demoEntries rfl rfl rfl
    demoEntries_stats_ok).1, ?_⟩
  decide

end Server
